import Mathlib

/-
Verification of the movie-genre-prediction scraping pipeline.

Shallow embedding of the four batch jobs of the repository:
 * Link Collector        (src/data-gathering/scrape.py, scrape_filmweb_links)
 * Detail Enricher       (src/scrape_details.py, scrape_range)
 * Gap Finder & Repairer (src/refill_missing.py, find_pages_with_missing / main)
 * Completeness Verifier (src/verify_links.py, verify)

The browser-automation engine is modelled as an oracle: each attempt to
load a listing page and query the CSS selector yields an `AttemptOutcome`,
and each movie URL visited by the enricher yields a `UrlObs` observation.
The filesystem is modelled as functions from page numbers to optional file
contents; a CSV file is its list of rows (each row a list of cell strings),
with the header row included for the gap finder and verifier (which read it)
and omitted for the enricher's output (whose header is a fixed constant).
-/

namespace MovieGenre

/-
Python string primitives used by the scripts, embedded as structural
functions on the character list of a string (Lean's own String.trim,
String.toLower, String.startsWith and String.replace are defined through
well-founded recursion on byte positions and therefore do not evaluate
inside the kernel; these equivalents do).
-/

/-- Whitespace test of Python str.strip (space, tab, newline, carriage
return, vertical tab, form feed). -/
def pyIsSpace (c : Char) : Bool :=
  c = ' ' || c = '\t' || c = '\n' || c = '\r' || c = '\x0b' || c = '\x0c'

/-- Python str.strip(): leading and trailing whitespace removed. -/
def pyStrip (s : String) : String :=
  ⟨((s.data.dropWhile pyIsSpace).reverse.dropWhile pyIsSpace).reverse⟩

/-- Python str.lower() on the ASCII names this repository compares. -/
def pyLower (s : String) : String := ⟨s.data.map Char.toLower⟩

/-- Python str.startswith(p). -/
def pyStartsWith (s p : String) : Bool := p.data.isPrefixOf s.data

/-- Python str.replace(a, b) for a single-character pattern and
replacement (the only form the scripts use: newlines and carriage
returns replaced by spaces). -/
def replaceChar (a b : Char) (s : String) : String :=
  ⟨s.data.map (fun c => if c = a then b else c)⟩

/-
Link Collector: src/data-gathering/scrape.py
-/

/-- Site scheme and host prepended to root-relative hrefs
(`"https://www.filmweb.pl" + href` in scrape_filmweb_links). -/
def SITE : String := "https://www.filmweb.pl"

/-- Outcome of one attempt of the inner retry loop of scrape_filmweb_links:
the `page.goto` call times out, the `wait_for_selector` call times out,
or the page loads and `query_selector_all` returns a list of elements.
An element is represented by its `href` attribute (`none` when absent). -/
inductive AttemptOutcome where
  | loadTimeout
  | selectorTimeout
  | found (elements : List (Option String))
deriving DecidableEq

/-- Inner retry loop of scrape_filmweb_links (`while attempt <= retries`).
`outcomes i` is the oracle's answer to the i-th attempt, `fuel` is the
remaining attempt budget (`retries + 1 - attempt`), and `el` is the
current `elements` value (initially `[]`; a load timeout keeps it, a
selector timeout resets it to `[]`, a found list replaces it and ends
the loop as soon as it has at least 10 entries).  Returns the final
`elements` together with the number of attempts actually made. -/
def retryLoop (outcomes : Nat → AttemptOutcome) :
    Nat → Nat → List (Option String) → List (Option String) × Nat
  | 0, _, el => (el, 0)
  | fuel + 1, i, el =>
    match outcomes i with
    | .loadTimeout =>
      let r := retryLoop outcomes fuel (i + 1) el
      (r.1, r.2 + 1)
    | .selectorTimeout =>
      let r := retryLoop outcomes fuel (i + 1) []
      (r.1, r.2 + 1)
    | .found e =>
      if 10 ≤ e.length then (e, 1)
      else
        let r := retryLoop outcomes fuel (i + 1) e
        (r.1, r.2 + 1)

/-- Bool test used by the retry-loop theorems: an outcome that ends the
retry loop (a found list with at least 10 elements). -/
def isBigFound : AttemptOutcome → Bool
  | .found e => 10 ≤ e.length
  | _ => false

/-- Normalization of one href in scrape_filmweb_links: a root-relative
href (starting with `/`) is prefixed with the site scheme and host,
anything else is kept unchanged. -/
def normalizeHref (href : String) : String :=
  if pyStartsWith href "/" then SITE ++ href else href

/-- Per-element extraction loop of scrape_filmweb_links
(`for el in elements[:10]`, minus the truncation): `if not href: continue`
skips an absent href and also an empty-string href, every other href is
normalized and appended in order. -/
def extractLinksLoop : List (Option String) → List String
  | [] => []
  | none :: rest => extractLinksLoop rest
  | some href :: rest =>
    if href = "" then extractLinksLoop rest
    else normalizeHref href :: extractLinksLoop rest

/-- Link extraction of scrape_filmweb_links for one page: only the first
10 matched elements are considered. -/
def extractLinks (elements : List (Option String)) : List String :=
  extractLinksLoop (elements.take 10)

/-- Claim-side extraction map (C4 as stated): only an absent href is
skipped; any present href, including the empty string, is kept. -/
def hrefClaim : Option String → Option String
  | none => none
  | some h => some (normalizeHref h)

/-- Claim-side link extraction (C4 as stated). -/
def extractLinksClaim (elements : List (Option String)) : List String :=
  (elements.take 10).filterMap hrefClaim

/-- Amended extraction map: an href that is absent or equal to the empty
string is skipped (this is what `if not href` does in Python). -/
def hrefAmended : Option String → Option String
  | none => none
  | some h => if h = "" then none else some (normalizeHref h)

/-- Amended link extraction: first 10 elements, skipping absent and empty
hrefs, normalizing root-relative ones, preserving order. -/
def extractLinksAmended (elements : List (Option String)) : List String :=
  (elements.take 10).filterMap hrefAmended

/-- Unique-merge loop of scrape_filmweb_links
(`for u in page_links: if u not in collected: ... break at target_count`):
appends each new link not already collected and stops as soon as the
collection reaches `t` entries. -/
def mergeLinks (t : Nat) (collected : List String) : List String → List String
  | [] => collected
  | u :: rest =>
    if u ∈ collected then mergeLinks t collected rest
    else if t ≤ collected.length + 1 then collected ++ [u]
    else mergeLinks t (collected ++ [u]) rest

/-- State of the outer collection loop: the global deduplicated link list,
the per-page files written so far (page number with that page's links),
and the page numbers visited so far. -/
structure CollectorState where
  collected : List String
  files : List (Nat × List String)
  visitedPages : List Nat
deriving DecidableEq

/-- Initial collector state. -/
def initState : CollectorState := { collected := [], files := [], visitedPages := [] }

/-- Outer collection loop of scrape_filmweb_links
(`while len(collected) < target_count`), driven by the oracle
`env page attempt`.  One fuel unit per visited page (the Python loop has
no intrinsic bound on the number of pages it visits).  Each iteration runs
the retry loop with budget `r + 1`; if the resulting element list is empty
the whole loop stops; otherwise the page's links are extracted, saved to
the page's file when non-empty (`save_page_file` returns without writing
when the list is empty), and merged into the global collection. -/
def collectLoop (env : Nat → Nat → AttemptOutcome) (t r : Nat) :
    Nat → Nat → CollectorState → CollectorState
  | 0, _, st => st
  | fuel + 1, p, st =>
    if st.collected.length < t then
      let st1 : CollectorState := { st with visitedPages := st.visitedPages ++ [p] }
      let elements := (retryLoop (env p) (r + 1) 0 []).1
      if elements.isEmpty then st1
      else
        let pl := extractLinks elements
        let files2 := if pl.isEmpty then st1.files else st1.files ++ [(p, pl)]
        let coll2 := mergeLinks t st1.collected pl
        collectLoop env t r fuel (p + 1)
          { collected := coll2, files := files2, visitedPages := st1.visitedPages }
    else st

/-- Return value of scrape_filmweb_links: the collection of the run from
the initial state, truncated to `target_count` (`collected[:target_count]`). -/
def scrapeFilmwebLinks (env : Nat → Nat → AttemptOutcome)
    (t startPage r fuel : Nat) : List String :=
  (collectLoop env t r fuel startPage initState).collected.take t

theorem mergeLinks_nodup (t : Nat) :
    ∀ (links : List String) (collected : List String), collected.Nodup →
      (mergeLinks t collected links).Nodup := by
  intro links
  induction links with
  | nil => intro collected h; simpa [mergeLinks] using h
  | cons u rest ih =>
    intro collected h
    by_cases hu : u ∈ collected
    · simpa [mergeLinks, hu] using ih collected h
    · have happ : (collected ++ [u]).Nodup := by
        simp [List.nodup_append, h, hu]
      by_cases ht : t ≤ collected.length + 1
      · simpa [mergeLinks, hu, ht] using happ
      · simpa [mergeLinks, hu, ht] using ih (collected ++ [u]) happ

theorem collectLoop_collected_nodup (env : Nat → Nat → AttemptOutcome) (t r : Nat) :
    ∀ (fuel p : Nat) (st : CollectorState), st.collected.Nodup →
      (collectLoop env t r fuel p st).collected.Nodup := by
  intro fuel
  induction fuel with
  | zero => intro p st h; simpa [collectLoop] using h
  | succ fuel ih =>
    intro p st h
    by_cases hlt : st.collected.length < t
    · by_cases hel : ((retryLoop (env p) (r + 1) 0 []).1).isEmpty
      · simpa [collectLoop, hlt, hel] using h
      · simpa [collectLoop, hlt, hel] using
          ih (p + 1) _ (mergeLinks_nodup t _ _ h)
    · simpa [collectLoop, hlt] using h

/-- C1: for every run of the Link Collector (any oracle, any target count,
start page, retry budget and page fuel), the returned list of URLs has
length at most `targetCount` and contains no two equal URL strings. -/
theorem collector_result_bounded_nodup (env : Nat → Nat → AttemptOutcome)
    (t startPage r fuel : Nat) :
    (scrapeFilmwebLinks env t startPage r fuel).length ≤ t ∧
      (scrapeFilmwebLinks env t startPage r fuel).Nodup := by
  constructor
  · simp [scrapeFilmwebLinks]
  · exact ((List.take_sublist t _).nodup
      (collectLoop_collected_nodup env t r fuel startPage initState (by simp [initState])))

/-- C4 counterexample: an element whose href attribute is present but equal
to the empty string is skipped by the code (`if not href: continue`),
whereas the claim keeps every present href; the two extractions disagree
on the single-element list `[some ""]`. -/
theorem collector_empty_href_counterexample :
    extractLinks [some ""] = [] ∧ extractLinksClaim [some ""] = [""] := by
  constructor <;> rfl

theorem extractLinksLoop_eq_filterMap (l : List (Option String)) :
    extractLinksLoop l = l.filterMap hrefAmended := by
  induction l with
  | nil => rfl
  | cons o rest ih =>
    cases o with
    | none => simpa [extractLinksLoop, hrefAmended] using ih
    | some h =>
      by_cases hh : h = ""
      · simpa [extractLinksLoop, hrefAmended, hh] using ih
      · simpa [extractLinksLoop, hrefAmended, hh] using ih

/-- C4 amended: from the matched elements the Collector considers only the
first 10, skips any element whose href is absent or the empty string,
keeps any other non-root-relative href unchanged, prefixes an href
starting with `/` with the site scheme and host, and preserves element
order. -/
theorem collector_extract_links_spec (elements : List (Option String)) :
    extractLinks elements = extractLinksAmended elements := by
  simpa [extractLinks, extractLinksAmended] using
    extractLinksLoop_eq_filterMap (elements.take 10)

/-- Oracle for the C2 counterexample: every attempt of every page finds a
single element whose href attribute is absent. -/
def envNoHref : Nat → Nat → AttemptOutcome := fun _ _ => .found [none]

/-- C2 counterexample: page 1 is visited, its retry loop ends with a
non-empty element list, the extracted link list is empty after filtering
out the element without an href, and NO page file is written
(`save_page_file` returns without writing when the list is empty) —
the claim asserts the Page File is written even in this case. -/
theorem collector_empty_page_not_written :
    (retryLoop (envNoHref 1) 1 0 []).1 = [none] ∧
      extractLinks (retryLoop (envNoHref 1) 1 0 []).1 = [] ∧
      (collectLoop envNoHref 5 0 1 1 initState).visitedPages = [1] ∧
      (collectLoop envNoHref 5 0 1 1 initState).files = [] := by
  refine ⟨rfl, rfl, ?_, ?_⟩ <;> rfl

theorem collectLoop_files_mono (env : Nat → Nat → AttemptOutcome) (t r : Nat) :
    ∀ (fuel p : Nat) (st : CollectorState),
      ∃ rest, (collectLoop env t r fuel p st).files = st.files ++ rest ∧
        ∀ pr ∈ rest, p ≤ pr.1 := by
  intro fuel
  induction fuel with
  | zero => intro p st; exact ⟨[], by simp [collectLoop], by simp⟩
  | succ fuel ih =>
    intro p st
    by_cases hlt : st.collected.length < t
    · by_cases hel : ((retryLoop (env p) (r + 1) 0 []).1).isEmpty
      · exact ⟨[], by simp [collectLoop, hlt, hel], by simp⟩
      · obtain ⟨rest, hrest, hge⟩ := ih (p + 1)
          { collected := mergeLinks t st.collected (extractLinks (retryLoop (env p) (r + 1) 0 []).1),
            files :=
              if (extractLinks (retryLoop (env p) (r + 1) 0 []).1).isEmpty then st.files
              else st.files ++ [(p, extractLinks (retryLoop (env p) (r + 1) 0 []).1)],
            visitedPages := st.visitedPages ++ [p] }
        by_cases hpl : (extractLinks (retryLoop (env p) (r + 1) 0 []).1).isEmpty
        · refine ⟨rest, ?_, ?_⟩
          · simp only [collectLoop, hlt, if_true, hel]
            simpa [hpl] using hrest
          · intro pr hpr; exact Nat.le_of_succ_le (hge pr hpr)
        · refine ⟨(p, extractLinks (retryLoop (env p) (r + 1) 0 []).1) :: rest, ?_, ?_⟩
          · simp only [collectLoop, hlt, if_true, hel]
            simp only [hpl, if_false] at hrest ⊢
            simpa using hrest
          · intro pr hpr
            rcases List.mem_cons.mp hpr with hpr1 | hpr1
            · simp [hpr1]
            · exact Nat.le_of_succ_le (hge pr hpr1)
    · exact ⟨[], by simp [collectLoop, hlt], by simp⟩

/-- C2 amended: after the retry loop of a visited page whose element list
is non-empty, the Collector writes that page's Page File immediately
(its entry follows the previously written files, before any later page's
file) exactly when the extracted link list is non-empty after filtering;
when that list is empty, no file for that page is ever written by the
rest of the run. -/
theorem collector_writes_nonempty_page_file (env : Nat → Nat → AttemptOutcome)
    (t r fuel p : Nat) (st : CollectorState)
    (h1 : st.collected.length < t)
    (h2 : (retryLoop (env p) (r + 1) 0 []).1 ≠ []) :
    (extractLinks (retryLoop (env p) (r + 1) 0 []).1 ≠ [] →
      ∃ rest, (collectLoop env t r (fuel + 1) p st).files =
        st.files ++ (p, extractLinks (retryLoop (env p) (r + 1) 0 []).1) :: rest) ∧
    (extractLinks (retryLoop (env p) (r + 1) 0 []).1 = [] →
      ∃ rest, (collectLoop env t r (fuel + 1) p st).files = st.files ++ rest ∧
        ∀ pr ∈ rest, p < pr.1) := by
  have hel : ((retryLoop (env p) (r + 1) 0 []).1).isEmpty = false := by
    simpa [List.isEmpty_iff] using h2
  constructor
  · intro hpl
    have hplE : (extractLinks (retryLoop (env p) (r + 1) 0 []).1).isEmpty = false := by
      simpa [List.isEmpty_iff] using hpl
    obtain ⟨rest, hrest, _⟩ := collectLoop_files_mono env t r fuel (p + 1)
      { collected := mergeLinks t st.collected (extractLinks (retryLoop (env p) (r + 1) 0 []).1),
        files := st.files ++ [(p, extractLinks (retryLoop (env p) (r + 1) 0 []).1)],
        visitedPages := st.visitedPages ++ [p] }
    refine ⟨rest, ?_⟩
    simp only [collectLoop, h1, if_true, hel]
    simp only [hplE] at hrest ⊢
    simpa using hrest
  · intro hpl
    have hplE : (extractLinks (retryLoop (env p) (r + 1) 0 []).1).isEmpty = true := by
      simp [hpl]
    obtain ⟨rest, hrest, hge⟩ := collectLoop_files_mono env t r fuel (p + 1)
      { collected := mergeLinks t st.collected (extractLinks (retryLoop (env p) (r + 1) 0 []).1),
        files := st.files,
        visitedPages := st.visitedPages ++ [p] }
    refine ⟨rest, ?_, ?_⟩
    · simp only [collectLoop, h1, if_true, hel]
      simp only [hplE] at hrest ⊢
      simpa using hrest
    · intro pr hpr; exact Nat.lt_of_succ_le (hge pr hpr)

/-- Oracle for the C2 witness: every attempt finds 10 elements carrying
the root-relative href `/x`. -/
def envGood : Nat → Nat → AttemptOutcome :=
  fun _ _ => .found (List.replicate 10 (some "/x"))

/-- Witness for the amended C2 theorem at a concrete oracle: page 1's
extracted links are non-empty and its file entry is written immediately. -/
theorem collector_writes_nonempty_page_file_witness :
    ∃ rest, (collectLoop envGood 5 0 1 1 initState).files =
      initState.files ++ (1, extractLinks (retryLoop (envGood 1) 1 0 []).1) :: rest :=
  (collector_writes_nonempty_page_file envGood 5 0 0 1 initState (by decide)
    (by decide)).1 (by decide)

theorem retryLoop_attempts_le (outcomes : Nat → AttemptOutcome) :
    ∀ (fuel i : Nat) (el : List (Option String)),
      (retryLoop outcomes fuel i el).2 ≤ fuel := by
  intro fuel
  induction fuel with
  | zero => intro i el; simp [retryLoop]
  | succ fuel ih =>
    intro i el
    simp only [retryLoop]
    cases h : outcomes i with
    | loadTimeout => simpa using ih (i + 1) el
    | selectorTimeout => simpa using ih (i + 1) []
    | found e =>
      by_cases h10 : 10 ≤ e.length
      · simp [h10]
      · simpa [h10] using ih (i + 1) e

theorem retryLoop_stops_at_first_big (outcomes : Nat → AttemptOutcome)
    (els : List (Option String)) :
    ∀ (k fuel i : Nat) (el : List (Option String)), k < fuel →
      outcomes (i + k) = .found els → 10 ≤ els.length →
      (∀ j, j < k → isBigFound (outcomes (i + j)) = false) →
      retryLoop outcomes fuel i el = (els, k + 1) := by
  intro k
  induction k with
  | zero =>
    intro fuel i el hk hfound h10 _
    obtain ⟨fuel', rfl⟩ := Nat.exists_eq_add_of_lt hk
    simp only [retryLoop]
    rw [show i + 0 = i from rfl] at hfound
    rw [hfound]
    simp [h10]
  | succ k ih =>
    intro fuel i el hk hfound h10 hprev
    obtain ⟨fuel', rfl⟩ := Nat.exists_eq_add_of_lt hk
    have hnotbig : isBigFound (outcomes i) = false := by
      simpa using hprev 0 (Nat.succ_pos k)
    have hshift : ∀ j, j < k → isBigFound (outcomes (i + 1 + j)) = false := by
      intro j hj
      have := hprev (j + 1) (Nat.succ_lt_succ hj)
      simpa [Nat.add_comm, Nat.add_assoc, Nat.add_left_comm] using this
    have hfound' : outcomes (i + 1 + k) = .found els := by
      simpa [Nat.add_comm, Nat.add_assoc, Nat.add_left_comm] using hfound
    have hklt : k < k + 1 + fuel' := by omega
    simp only [retryLoop]
    cases h : outcomes i with
    | loadTimeout =>
      rw [ih (k + 1 + fuel') (i + 1) el hklt hfound' h10 hshift]
    | selectorTimeout =>
      rw [ih (k + 1 + fuel') (i + 1) [] hklt hfound' h10 hshift]
    | found e =>
      have he : ¬ 10 ≤ e.length := by
        simpa [isBigFound, h] using hnotbig
      simp only [he, if_false]
      rw [ih (k + 1 + fuel') (i + 1) e hklt hfound' h10 hshift]

/-- C3: the inner retry loop makes at most `maxRetriesPerPage + 1` attempts
(its attempt count never exceeds its budget); it ends as soon as an
attempt yields at least 10 selector matches (if attempt `k` is the first
whose outcome is a found list with 10 or more elements, exactly `k + 1`
attempts are made and that list is returned); and if the budget is
exhausted with an empty last-obtained element list, the whole collection
loop stops at that page and no further page numbers are visited. -/
theorem collector_retry_budget (outcomes : Nat → AttemptOutcome)
    (fuel i : Nat) (el els : List (Option String)) (k : Nat)
    (env : Nat → Nat → AttemptOutcome) (t r fuel2 p : Nat) (st : CollectorState) :
    (retryLoop outcomes fuel i el).2 ≤ fuel ∧
    (k < fuel → outcomes (i + k) = .found els → 10 ≤ els.length →
      (∀ j, j < k → isBigFound (outcomes (i + j)) = false) →
      retryLoop outcomes fuel i el = (els, k + 1)) ∧
    (st.collected.length < t → (retryLoop (env p) (r + 1) 0 []).1 = [] →
      collectLoop env t r (fuel2 + 1) p st =
        { st with visitedPages := st.visitedPages ++ [p] }) := by
  refine ⟨retryLoop_attempts_le outcomes fuel i el, ?_, ?_⟩
  · intro hk hfound h10 hprev
    exact retryLoop_stops_at_first_big outcomes els k fuel i el hk hfound h10 hprev
  · intro hlt hempty
    have hel : ((retryLoop (env p) (r + 1) 0 []).1).isEmpty = true := by
      simp [hempty]
    simp [collectLoop, hlt, hel]

/-- Oracle for the C3 witness: the first attempt of any page times out on
load, the second finds 10 elements. -/
def outsW : Nat → AttemptOutcome :=
  fun i => if i = 0 then .loadTimeout else .found (List.replicate 10 (some "x"))

/-- Oracle for the C3 witness's stop clause: every attempt times out
waiting for the selector, so the retry loop ends with an empty list. -/
def envStop : Nat → Nat → AttemptOutcome := fun _ _ => .selectorTimeout

/-- Witness for the C3 theorem at concrete oracles: with a budget of 4 the
loop makes at most 4 attempts and stops after exactly 2 when the second
attempt finds 10 elements; and a page whose retry loop yields no elements
stops the collection loop with no further page visited. -/
theorem collector_retry_budget_witness :
    (retryLoop outsW 4 0 []).2 ≤ 4 ∧
      retryLoop outsW 4 0 [] = (List.replicate 10 (some "x"), 2) ∧
      collectLoop envStop 5 0 1 1 initState =
        { initState with visitedPages := initState.visitedPages ++ [1] } := by
  obtain ⟨h1, h2, h3⟩ := collector_retry_budget outsW 4 0 []
    (List.replicate 10 (some "x")) 1 envStop 5 0 0 1 initState
  exact ⟨h1, h2 (by decide) (by decide) (by decide) (by decide),
    h3 (by decide) (by decide)⟩

/-
Detail Enricher: src/scrape_details.py
-/

/-- Observation of one movie URL by the enricher's browser oracle:
whether `page.goto(url)` succeeds (false = PlaywrightTimeoutError),
the inner text of the title element when `query_selector` finds one,
the inner texts of the matched genre elements, whether navigation to the
derived `/descs` page succeeds, and the inner text of the description
element when found there.  `extract_text_or_empty` failures are folded
into the observed text being the empty string. -/
structure UrlObs where
  navOk : Bool
  titleEl : Option String
  genreEls : List String
  descNavOk : Bool
  descEl : Option String

/-- Title extraction in scrape_range: the element's stripped inner text,
or the empty string when the selector matches nothing. -/
def titleOf (o : UrlObs) : String := pyStrip (o.titleEl.getD "")

/-- Genre extraction in scrape_range: each matched element's stripped
inner text, the non-empty ones joined with `;`. -/
def genresOf (o : UrlObs) : String :=
  String.intercalate ";" ((o.genreEls.map pyStrip).filter (fun g => g ≠ ""))

/-- Description extraction in scrape_range: empty when navigation to the
`/descs` page times out, otherwise the stripped inner text with newlines
and carriage returns collapsed to spaces and stripped again. -/
def descOf (o : UrlObs) : String :=
  if o.descNavOk then
    pyStrip (replaceChar '\r' ' ' (replaceChar '\n' ' ' (pyStrip (o.descEl.getD ""))))
  else ""

/-- Processing of one URL in scrape_range's inner loop: a navigation
timeout records `[url, "", "", ""]` and moves on; otherwise the record
carries the extracted title, joined genres and description. -/
def processUrl (url : String) (o : UrlObs) : List String :=
  if o.navOk then [url, titleOf o, genresOf o, descOf o]
  else [url, "", "", ""]

/-- Result rows of scrape_range for one page: one record per link, in
link order (`results.append(...)` once per iteration of `for url in links`). -/
def pageRows (links : List String) (obs : String → UrlObs) : List (List String) :=
  links.map (fun u => processUrl u (obs u))

/-- Link reading of read_links_for_page: a missing file yields `[]`;
otherwise the rows after the header, skipping empty rows, each
contributing its stripped first cell. -/
def readLinksForPage (content : Option (List (List String))) : List String :=
  match content with
  | none => []
  | some rows =>
    (rows.drop 1).filterMap (fun r =>
      match r with
      | [] => none
      | c :: _ => some (pyStrip c))

/-- File write of write_page_results: the page's result file is opened in
`"w"` mode, i.e. the previous content of `data_page{n}.csv` is replaced
wholesale by the new rows (the fixed header row is left implicit; a file
is modelled as its list of data rows). -/
def writePageResults (fs : Nat → Option (List (List String))) (p : Nat)
    (rows : List (List String)) : Nat → Option (List (List String)) :=
  fun q => if q = p then some rows else fs q

/-- Per-page body of scrape_range: read the page's links; when there are
none, skip the page without writing; otherwise write the page's result
rows over whatever was there before. -/
def enrichPage (linksFs : Nat → Option (List (List String)))
    (obs : Nat → String → UrlObs)
    (fs : Nat → Option (List (List String))) (p : Nat) :
    Nat → Option (List (List String)) :=
  let links := readLinksForPage (linksFs p)
  if links.isEmpty then fs
  else writePageResults fs p (pageRows links (obs p))

/-- Page loop of scrape_range (`for page_num in range(start, end + 1)`). -/
def scrapeRange (linksFs : Nat → Option (List (List String)))
    (obs : Nat → String → UrlObs) (start stop : Nat)
    (fs : Nat → Option (List (List String))) : Nat → Option (List (List String)) :=
  (List.range' start (stop + 1 - start)).foldl (fun acc p => enrichPage linksFs obs acc p) fs

theorem processUrl_head (url : String) (o : UrlObs) :
    (processUrl url o).head? = some url := by
  by_cases h : o.navOk <;> simp [processUrl, h]

theorem pageRows_cons (l : String) (ls : List String) (obs : String → UrlObs) :
    pageRows (l :: ls) obs = processUrl l (obs l) :: pageRows ls obs := rfl

theorem pageRows_countP_eq_zero (obs : String → UrlObs) (u : String) :
    ∀ links : List String, u ∉ links →
      (pageRows links obs).countP (fun r => decide (r.head? = some u)) = 0 := by
  intro links
  induction links with
  | nil => intro _; rfl
  | cons l ls ih =>
    intro hu
    have hne : l ≠ u := fun h => hu (h ▸ List.mem_cons_self l ls)
    have hu' : u ∉ ls := fun h => hu (List.mem_cons_of_mem l h)
    rw [pageRows_cons, List.countP_cons, ih hu']
    simp [processUrl_head, hne]

theorem pageRows_countP_eq_one (obs : String → UrlObs) (u : String) :
    ∀ links : List String, links.Nodup → u ∈ links →
      (pageRows links obs).countP (fun r => decide (r.head? = some u)) = 1 := by
  intro links
  induction links with
  | nil => intro _ h; cases h
  | cons l ls ih =>
    intro hnd hmem
    have hnd' := List.nodup_cons.mp hnd
    rcases List.mem_cons.mp hmem with rfl | hmem'
    · rw [pageRows_cons, List.countP_cons, pageRows_countP_eq_zero obs u ls hnd'.1]
      simp [processUrl_head]
    · have hne : l ≠ u := fun h => hnd'.1 (h ▸ hmem')
      rw [pageRows_cons, List.countP_cons, ih hnd'.2 hmem']
      simp [processUrl_head, hne]

/-- C5: for every URL in the link list read from a page's Page File
(assuming the list has no duplicates), the enricher's result rows contain
exactly one row whose first cell is that URL; when navigation to the URL
times out that row is `[url, "", "", ""]`; and when only the derived
description page fails, the row still carries the already-gathered title
and genres with an empty description — no row is ever dropped. -/
theorem enricher_row_per_url (links : List String) (obs : String → UrlObs)
    (u : String) (hmem : u ∈ links) (hnd : links.Nodup) :
    (pageRows links obs).countP (fun r => decide (r.head? = some u)) = 1 ∧
    ((obs u).navOk = false → [u, "", "", ""] ∈ pageRows links obs) ∧
    ((obs u).navOk = true → (obs u).descNavOk = false →
      [u, titleOf (obs u), genresOf (obs u), ""] ∈ pageRows links obs) := by
  refine ⟨pageRows_countP_eq_one obs u links hnd hmem, ?_, ?_⟩
  · intro hnav
    have : processUrl u (obs u) = [u, "", "", ""] := by simp [processUrl, hnav]
    exact this ▸ List.mem_map_of_mem (fun l => processUrl l (obs l)) hmem
  · intro hnav hdesc
    have : processUrl u (obs u) = [u, titleOf (obs u), genresOf (obs u), ""] := by
      simp [processUrl, hnav, descOf, hdesc]
    exact this ▸ List.mem_map_of_mem (fun l => processUrl l (obs l)) hmem

/-- Observation oracle for the C5 witness: navigation to every URL times
out. -/
def obsTimeout : String → UrlObs :=
  fun _ => { navOk := false, titleEl := none, genreEls := [], descNavOk := true, descEl := none }

/-- Witness for the C5 theorem on a concrete one-link page whose URL times
out: exactly one row, and it is the all-blank fallback row. -/
theorem enricher_row_per_url_witness :
    (pageRows ["u1"] obsTimeout).countP (fun r => decide (r.head? = some "u1")) = 1 ∧
      ["u1", "", "", ""] ∈ pageRows ["u1"] obsTimeout := by
  obtain ⟨h1, h2, _⟩ := enricher_row_per_url ["u1"] obsTimeout "u1"
    (by decide) (by decide)
  exact ⟨h1, h2 rfl⟩

/-- C6: re-running the Detail Enricher for a single page `p`
(`--start p --end p`) whose Page File yields a non-empty link list writes
that page's Page Result File wholesale: the resulting file holds exactly
the new rows, its data-row count equals the number of links read from the
Page File, and the result does not depend on the file's previous content
(overwrite, never append). -/
theorem enricher_overwrite_row_count (linksFs : Nat → Option (List (List String)))
    (obs : Nat → String → UrlObs)
    (fs fs2 : Nat → Option (List (List String))) (p : Nat)
    (h : readLinksForPage (linksFs p) ≠ []) :
    scrapeRange linksFs obs p p fs p =
      some (pageRows (readLinksForPage (linksFs p)) (obs p)) ∧
    (pageRows (readLinksForPage (linksFs p)) (obs p)).length =
      (readLinksForPage (linksFs p)).length ∧
    scrapeRange linksFs obs p p fs p = scrapeRange linksFs obs p p fs2 p := by
  have hrange : List.range' p (p + 1 - p) = [p] := by
    have : p + 1 - p = 1 := by omega
    rw [this]; rfl
  have hl : (readLinksForPage (linksFs p)).isEmpty = false := by
    simpa [List.isEmpty_iff] using h
  have hstep : ∀ g : Nat → Option (List (List String)),
      scrapeRange linksFs obs p p g p =
        some (pageRows (readLinksForPage (linksFs p)) (obs p)) := by
    intro g
    simp [scrapeRange, hrange, enrichPage, hl, h, writePageResults]
  refine ⟨hstep fs, by simp [pageRows], by rw [hstep fs, hstep fs2]⟩

/-- Page File contents for the C6 witness: a header row and two link rows. -/
def linksFsW : Nat → Option (List (List String)) :=
  fun p => if p = 1 then some [["url"], ["u1"], ["u2"]] else none

/-- Previous Page Result File contents for the C6 witness: page 1 already
holds three stale rows, which the re-run must replace with two. -/
def fsOldW : Nat → Option (List (List String)) :=
  fun p => if p = 1 then some [["a", "b", "c", "d"], ["e", "f", "g", "h"], ["i", "j", "k", "l"]] else none

/-- Witness for the C6 theorem: re-running page 1 over the stale file
leaves exactly one row per link of its Page File. -/
theorem enricher_overwrite_row_count_witness :
    scrapeRange linksFsW (fun _ => obsTimeout) 1 1 fsOldW 1 =
      some (pageRows (readLinksForPage (linksFsW 1)) ((fun _ => obsTimeout) 1)) ∧
    (pageRows (readLinksForPage (linksFsW 1)) ((fun _ => obsTimeout) 1)).length =
      (readLinksForPage (linksFsW 1)).length :=
  ⟨(enricher_overwrite_row_count linksFsW (fun _ => obsTimeout) fsOldW fsOldW 1 (by decide)).1,
    (enricher_overwrite_row_count linksFsW (fun _ => obsTimeout) fsOldW fsOldW 1 (by decide)).2.1⟩

/-
Gap Finder and Repairer: src/refill_missing.py
-/

/-- Sentinel value MISSING_TITLE of refill_missing.py. -/
def MISSING_TITLE : String := "__MISSING_TITLE__"

/-- Sentinel value MISSING_DESC of refill_missing.py. -/
def MISSING_DESC : String := "__MISSING_DESCRIPTION__"

/-- Helper for lastIdx, scanning the header from position `i`. -/
def lastIdxGo (name : String) : List String → Nat → Option Nat
  | [], _ => none
  | h :: t, i =>
    match lastIdxGo name t (i + 1) with
    | some j => some j
    | none => if pyLower (pyStrip h) = name then some i else none

/-- Column lookup of find_pages_with_missing: the dict comprehension
`{h.strip().lower(): i for i, h in enumerate(header)}` keeps the LAST
index of each normalized header name, and `.get(name)` yields it (or
nothing when the column is absent). -/
def lastIdx (header : List String) (name : String) : Option Nat :=
  lastIdxGo name header 0

/-- Guarded field access of find_pages_with_missing
(`r[ti].strip() if ti < len(r) else ""`): a cell index beyond the row's
length yields the empty string instead of an out-of-bounds access. -/
def fieldAt (r : List String) (i : Nat) : String :=
  if h : i < r.length then pyStrip (r.get ⟨i, h⟩) else ""

/-- Data-row test of find_pages_with_missing: a row is bad when its
title, genres or description field is empty, or its title equals the
MISSING_TITLE sentinel, or its description equals the MISSING_DESC
sentinel. -/
def rowBad (ti gi di : Nat) (r : List String) : Bool :=
  fieldAt r ti == "" || fieldAt r gi == "" || fieldAt r di == "" ||
    fieldAt r ti == MISSING_TITLE || fieldAt r di == MISSING_DESC

/-- Per-file incompleteness test of find_pages_with_missing.  A file is
modelled as `none` when reading or parsing it raises (flagged), otherwise
as its parsed rows: flagged when there are fewer than 2 rows, when the
header lacks a title, genres or description column, or when some data row
is bad. -/
def pageFlagged : Option (List (List String)) → Bool
  | none => true
  | some [] => true
  | some (header :: dataRows) =>
    if dataRows.isEmpty then true
    else
      match lastIdx header "title", lastIdx header "genres",
          lastIdx header "description" with
      | some ti, some gi, some di => dataRows.any (rowBad ti gi di)
      | _, _, _ => true

/-- Claim-side data-row test (C7 as stated): a row is also bad when ANY of
the three named fields equals EITHER of the two sentinel strings. -/
def rowBadClaim (ti gi di : Nat) (r : List String) : Bool :=
  fieldAt r ti == "" || fieldAt r gi == "" || fieldAt r di == "" ||
    fieldAt r ti == MISSING_TITLE || fieldAt r ti == MISSING_DESC ||
    fieldAt r gi == MISSING_TITLE || fieldAt r gi == MISSING_DESC ||
    fieldAt r di == MISSING_TITLE || fieldAt r di == MISSING_DESC

/-- Claim-side per-file test (C7 as stated). -/
def pageFlaggedClaim : Option (List (List String)) → Bool
  | none => true
  | some [] => true
  | some (header :: dataRows) =>
    if dataRows.isEmpty then true
    else
      match lastIdx header "title", lastIdx header "genres",
          lastIdx header "description" with
      | some ti, some gi, some di => dataRows.any (rowBadClaim ti gi di)
      | _, _, _ => true

/-- Directory scan of find_pages_with_missing: the `text-data/` directory
is modelled as the list of its `data_pageN.csv` files, each a page number
paired with that file's optional parsed rows; the result is the set of
page numbers of the flagged files. -/
def findPagesWithMissing (dir : List (Nat × Option (List (List String)))) : List Nat :=
  (dir.filter (fun e => pageFlagged e.2)).map (fun e => e.1)

/-- Insertion into a sorted list of page numbers. -/
def insertSorted (x : Nat) : List Nat → List Nat
  | [] => [x]
  | y :: ys => if x ≤ y then x :: y :: ys else y :: insertSorted x ys

/-- Sorting of the flagged page set (`sorted(pages)` in
run_scrape_for_pages). -/
def sortPages (l : List Nat) : List Nat := l.foldr insertSorted []

/-- Subprocess launches of run_scrape_for_pages: one
`scrape_details.py --start N --end N` invocation per flagged page, in
ascending order, each represented by its start and end page arguments;
no invocation at all when no page is flagged. -/
def runScrapeForPages (pages : List Nat) : List (Nat × Nat) :=
  if pages.isEmpty then []
  else (sortPages pages).map (fun p => (p, p))

/-- Entry point main of refill_missing.py: it computes and prints the
flagged page set, but the `run_scrape_for_pages(pages, ...)` call is
commented out in the source, so the run performs NO enricher
invocations.  Returns the flagged pages and the launched invocations. -/
def refillMain (dir : List (Nat × Option (List (List String)))) :
    List Nat × List (Nat × Nat) :=
  (findPagesWithMissing dir, [])

/-- Page Result File rows for the C7 counterexample: one data row whose
genres field holds the title sentinel while title, genres and
description are all non-empty. -/
def cexRowsC7 : List (List String) :=
  [["url", "title", "genres", "description"], ["u", "T", "__MISSING_TITLE__", "D"]]

/-- C7 counterexample: a data row whose genres field equals the reserved
title sentinel is NOT flagged by the code (the code compares only the
title field against MISSING_TITLE and the description field against
MISSING_DESC), while the claim's condition flags it. -/
theorem gapfinder_sentinel_counterexample :
    pageFlagged (some cexRowsC7) = false ∧
      pageFlaggedClaim (some cexRowsC7) = true := by
  constructor <;> rfl

/-- Amended flagging condition, stated as a logical characterization: a
file is flagged exactly when it fails to read, has fewer than 2 rows,
lacks one of the three named columns, or some data row has an empty
title, genres or description field, or its title equals MISSING_TITLE,
or its description equals MISSING_DESC. -/
def FlaggedSpec : Option (List (List String)) → Prop
  | none => True
  | some [] => True
  | some (header :: dataRows) =>
    dataRows = [] ∨
      lastIdx header "title" = none ∨
      lastIdx header "genres" = none ∨
      lastIdx header "description" = none ∨
      ∃ ti gi di, lastIdx header "title" = some ti ∧
        lastIdx header "genres" = some gi ∧
        lastIdx header "description" = some di ∧
        ∃ r ∈ dataRows,
          fieldAt r ti = "" ∨ fieldAt r gi = "" ∨ fieldAt r di = "" ∨
            fieldAt r ti = MISSING_TITLE ∨ fieldAt r di = MISSING_DESC

theorem rowBad_eq_true_iff (ti gi di : Nat) (r : List String) :
    rowBad ti gi di r = true ↔
      fieldAt r ti = "" ∨ fieldAt r gi = "" ∨ fieldAt r di = "" ∨
        fieldAt r ti = MISSING_TITLE ∨ fieldAt r di = MISSING_DESC := by
  simp [rowBad, or_assoc]

/-- C7 amended: the Gap Finder flags a page if and only if the amended
characterization holds of its Page Result File. -/
theorem gapfinder_flag_characterization (content : Option (List (List String))) :
    pageFlagged content = true ↔ FlaggedSpec content := by
  cases content with
  | none => simp [pageFlagged, FlaggedSpec]
  | some rows =>
    cases rows with
    | nil => simp [pageFlagged, FlaggedSpec]
    | cons header dataRows =>
      by_cases hd : dataRows = []
      · simp [pageFlagged, FlaggedSpec, hd]
      · have hdE : dataRows.isEmpty = false := by simpa [List.isEmpty_iff] using hd
        cases h1 : lastIdx header "title" with
        | none => simp [pageFlagged, FlaggedSpec, hdE, hd, h1]
        | some ti =>
          cases h2 : lastIdx header "genres" with
          | none => simp [pageFlagged, FlaggedSpec, hdE, hd, h1, h2]
          | some gi =>
            cases h3 : lastIdx header "description" with
            | none => simp [pageFlagged, FlaggedSpec, hdE, hd, h1, h2, h3]
            | some di =>
              simp only [pageFlagged, FlaggedSpec, hdE, Bool.false_eq_true,
                if_false, h1, h2, h3, List.any_eq_true, rowBad_eq_true_iff]
              constructor
              · rintro ⟨r, hr, hbad⟩
                refine Or.inr (Or.inr (Or.inr (Or.inr
                  ⟨ti, gi, di, rfl, rfl, rfl, r, hr, hbad⟩)))
              · rintro (h | h | h | h | ⟨ti', gi', di', hti, hgi, hdi, r, hr, hbad⟩)
                · exact absurd h hd
                · exact absurd h (by simp)
                · exact absurd h (by simp)
                · exact absurd h (by simp)
                · cases Option.some.inj hti
                  cases Option.some.inj hgi
                  cases Option.some.inj hdi
                  exact ⟨r, hr, hbad⟩

/-- Directory contents for the C8 evidence: a single result file
data_page3.csv with a correct header and one data row whose title is
empty, so page 3 must be re-enriched. -/
def cexDirC8 : List (Nat × Option (List (List String))) :=
  [(3, some [["url", "title", "genres", "description"], ["u", "", "Comedy", "desc"]])]

/-- C8 evidence: page 3 is flagged and run_scrape_for_pages would launch
exactly one `--start 3 --end 3` invocation for it, but main's run
launches none, because the `run_scrape_for_pages(pages, ...)` call in
main is commented out in the source — the code contradicts the module's
own docstring ("This script calls `scrape_details.py --start N --end N`
for each page with missing data."). -/
theorem refill_main_skips_reinvocation :
    findPagesWithMissing cexDirC8 = [3] ∧
      runScrapeForPages (findPagesWithMissing cexDirC8) = [(3, 3)] ∧
      (refillMain cexDirC8).2 = [] := by
  refine ⟨rfl, rfl, rfl⟩

/-- C10: field access in the Gap Finder is guarded by the row's length:
when a data row has at most `ti` cells, the title field read at index
`ti` is the empty string (no out-of-bounds access — fieldAt is total),
such a row is bad, and a page whose Page Result File contains such a
data row under a header resolving the three required columns is
flagged. -/
theorem gapfinder_short_row_guard (r : List String) (ti gi di : Nat)
    (header : List String) (dataRows : List (List String))
    (h : r.length ≤ ti) (hr : r ∈ dataRows)
    (ht : lastIdx header "title" = some ti)
    (hg : lastIdx header "genres" = some gi)
    (hd : lastIdx header "description" = some di) :
    fieldAt r ti = "" ∧ rowBad ti gi di r = true ∧
      pageFlagged (some (header :: dataRows)) = true := by
  have hfield : fieldAt r ti = "" := by
    have : ¬ ti < r.length := by omega
    simp [fieldAt, this]
  have hbad : rowBad ti gi di r = true := by
    simp [rowBad, hfield]
  refine ⟨hfield, hbad, ?_⟩
  have hne : dataRows ≠ [] := by
    intro hh
    rw [hh] at hr
    cases hr
  have hdE : dataRows.isEmpty = false := by simpa [List.isEmpty_iff] using hne
  simp only [pageFlagged, hdE, Bool.false_eq_true, if_false, ht, hg, hd,
    List.any_eq_true]
  exact ⟨r, hr, hbad⟩

/-- Witness for the C10 theorem: a one-cell data row under the standard
header, whose title column has index 1. -/
theorem gapfinder_short_row_guard_witness :
    fieldAt ["u"] 1 = "" ∧ rowBad 1 2 3 ["u"] = true ∧
      pageFlagged (some (["url", "title", "genres", "description"] :: [["u"]])) = true :=
  gapfinder_short_row_guard ["u"] 1 2 3
    ["url", "title", "genres", "description"] [["u"]]
    (by decide) (by decide) (by decide) (by decide) (by decide)

/-
Completeness Verifier: src/verify_links.py
-/

/-- Expected number of page files (EXPECTED_COUNT in verify_links.py). -/
def EXPECTED_COUNT : Nat := 1000

/-- Expected data rows per page file (EXPECTED_ROWS_PER_FILE). -/
def EXPECTED_ROWS_PER_FILE : Nat := 10

/-- Header test of verify: a file's header is bad when the header row is
the empty list (`not header`) or its first cell, stripped and lowered,
is not `url`.  An empty file is skipped before this check
(`if not rows: ... continue`), hence not counted as bad-header. -/
def fileBadHeader (rows : List (List String)) : Bool :=
  match rows with
  | [] => false
  | header :: _ =>
    header.isEmpty || !(pyLower (pyStrip (header.headD "")) == "url")

/-- Short-file test of verify: an empty file counts as short (appended
with count 0), otherwise the number of non-blank data rows (a row that
is non-empty and has some cell with non-empty stripped text) is below
the expected count. -/
def fileShort (rowsPer : Nat) (rows : List (List String)) : Bool :=
  match rows with
  | [] => true
  | _ :: dataRows =>
    decide (dataRows.countP
      (fun r => !r.isEmpty && r.any (fun c => !(pyStrip c == ""))) < rowsPer)

/-- Links directory for the verifier: page number i maps to `none` when
`page{i}.csv` is absent, to `some none` when reading it raises, and to
`some (some rows)` when it parses to `rows`. -/
def missingList (fs : Nat → Option (Option (List (List String)))) (n : Nat) : List Nat :=
  (List.range' 1 n).filter (fun i => (fs i).isNone)

/-- Read-error category of verify (the `problems` list). -/
def problemsList (fs : Nat → Option (Option (List (List String)))) (n : Nat) : List Nat :=
  (List.range' 1 n).filter (fun i =>
    match fs i with
    | some none => true
    | _ => false)

/-- Bad-header category of verify. -/
def badHeaderList (fs : Nat → Option (Option (List (List String)))) (n : Nat) : List Nat :=
  (List.range' 1 n).filter (fun i =>
    match fs i with
    | some (some rows) => fileBadHeader rows
    | _ => false)

/-- Short-file category of verify. -/
def shortList (fs : Nat → Option (Option (List (List String)))) (n : Nat)
    (rowsPer : Nat) : List Nat :=
  (List.range' 1 n).filter (fun i =>
    match fs i with
    | some (some rows) => fileShort rowsPer rows
    | _ => false)

/-- Return code of verify: 2 when the links directory is absent; else 1
when `missing or bad_header or short_files or problems` is non-empty;
else 0.  The expected file count and rows-per-file are the module-level
constants (1000 and 10), passed here as parameters. -/
def verify (dirExists : Bool) (fs : Nat → Option (Option (List (List String))))
    (n rowsPer : Nat) : Nat :=
  if dirExists then
    if (missingList fs n).isEmpty && (badHeaderList fs n).isEmpty &&
        (shortList fs n rowsPer).isEmpty && (problemsList fs n).isEmpty then 0
    else 1
  else 2

/-- Links directory for the C9 counterexample: the single expected file
exists but reading it raises, so it lands in the read-error category and
in no other. -/
def cexFsV : Nat → Option (Option (List (List String))) :=
  fun i => if i = 1 then some none else none

/-- C9 counterexample: with one expected file that exists but fails to
read, the missing, bad-header and short-file categories are all empty,
yet verify returns 1, not the 0 the claim's pass condition ("0 exactly
when the missing, bad-header, and short-file categories are all empty")
predicts. -/
theorem verifier_readerror_counterexample :
    missingList cexFsV 1 = [] ∧ badHeaderList cexFsV 1 = [] ∧
      shortList cexFsV 1 10 = [] ∧ verify true cexFsV 1 10 = 1 := by
  refine ⟨rfl, rfl, rfl, rfl⟩

/-- C9 amended: verify returns 2 exactly when the links directory is
absent; with the directory present it returns 0 exactly when the
missing, bad-header, short-file AND read-error categories are all
empty, and 1 exactly otherwise. -/
theorem verifier_exit_codes (fs : Nat → Option (Option (List (List String))))
    (n rowsPer : Nat) :
    verify false fs n rowsPer = 2 ∧
    (verify true fs n rowsPer = 0 ↔
      (missingList fs n = [] ∧ badHeaderList fs n = [] ∧
        shortList fs n rowsPer = [] ∧ problemsList fs n = [])) ∧
    (verify true fs n rowsPer = 1 ↔
      ¬ (missingList fs n = [] ∧ badHeaderList fs n = [] ∧
        shortList fs n rowsPer = [] ∧ problemsList fs n = [])) := by
  refine ⟨rfl, ?_, ?_⟩ <;>
  · by_cases h1 : missingList fs n = [] <;>
      by_cases h2 : badHeaderList fs n = [] <;>
        by_cases h3 : shortList fs n rowsPer = [] <;>
          by_cases h4 : problemsList fs n = [] <;>
            simp [verify, List.isEmpty_iff, h1, h2, h3, h4]

end MovieGenre
